import Mathlib

/-!
Verification of the clan-dashboard service (`src/app.py`): a read-through
cache in front of the Clash of Clans REST API, with resource fetchers,
derived aggregations (war statistics, leaderboards) and a CWL team-selection
store.  The Python functions are shallowly embedded below; JSON values are
modelled by the inductive `Json`, the module-level `cache` dictionary by a
function from cache keys to entries, and `datetime.utcnow()` by an explicit
integer parameter (seconds).  Where the Python code would raise on a
malformed payload (e.g. `x['role']` on an item without that key), the
embedded field readers return a default; every theorem below only involves
payloads on which the source and the model agree.
-/

set_option maxRecDepth 4096

/-- JSON values, as produced by `response.json()`.  Python `None` is `null`;
numbers are carried as integers (no arithmetic is ever performed on them by
the code under verification). -/
inductive Json where
  | null
  | bool (b : Bool)
  | num (n : Int)
  | str (s : String)
  | arr (items : List Json)
  | obj (fields : List (String × Json))

/-- Association-list lookup of a key in a JSON object's field list (Python
`data[key]` / `key in data` on a dict, whose keys are unique). -/
def lookupField : List (String × Json) → String → Option Json
  | [], _ => none
  | (k, v) :: rest, key => if k = key then some v else lookupField rest key

/-- Replace the value of the first occurrence of `key` (Python dict item
assignment on an existing key keeps its position). -/
def setField : List (String × Json) → String → Json → List (String × Json)
  | [], _, _ => []
  | (k, v) :: rest, key, value =>
    if k = key then (k, value) :: rest else (k, v) :: setField rest key value

/-- Python `isinstance(data, dict)`. -/
def Json.isDict : Json → Bool
  | .obj _ => true
  | _ => false

/-- Read a key of a JSON value, when it is an object. -/
def Json.getKey? : Json → String → Option Json
  | .obj fs, key => lookupField fs key
  | _, _ => none

/-- Python `key in data` for a dict value. -/
def Json.hasKey (j : Json) (key : String) : Bool :=
  (j.getKey? key).isSome

/-- The error dictionaries returned by `make_api_request`:
`{'error': message}`. -/
def errObj (message : String) : Json :=
  .obj [("error", .str message)]

/-- The upstream HTTP exchange, abstracted: a 2xx response with parsed JSON
body, a non-2xx status (with `response.text`), or a transport-level failure
(`requests.exceptions.RequestException`, which also covers a JSON-decode
failure of the body). -/
inductive UpstreamResponse where
  | success (body : Json)
  | httpError (status : Nat) (text : String)
  | transportError (detail : String)

/-- The fixed message produced for HTTP 403 in `make_api_request`. -/
def forbidden_message : String :=
  "API request failed: 403 Forbidden. This is likely an IP address issue. See README.md for instructions on how to register your server IP."

/-- Embeds `make_api_request` (src/app.py lines 60-81): returns the parsed JSON on
success and an `{'error': ...}` dictionary otherwise.  `apiKeyConfigured`
models the `if not API_KEY` guard; the endpoint's network outcome is the
`resp` argument. -/
def make_api_request (apiKeyConfigured : Bool) (resp : UpstreamResponse) : Json :=
  if apiKeyConfigured = false then errObj "API key is not configured."
  else
    match resp with
    | .success body => body
    | .httpError status text =>
      if status == 403 then errObj forbidden_message
      else if status == 429 then errObj "API rate limit exceeded"
      else errObj ("API request failed: " ++ toString status ++ " - " ++ text)
    | .transportError detail => errObj ("API request failed: " ++ detail)

/-- The keys of the module-level `cache` dictionary (src/app.py lines 31-39). -/
inductive CacheKey where
  | clan_info
  | members
  | war_log
  | current_war
  | league_group
  | capital_raids
  | leagues
deriving DecidableEq

/-- One cache slot: `{'data': ..., 'timestamp': ...}`.  Initially the data is
Python `None` (modelled `Json.null`) and the timestamp is absent. -/
structure CacheEntry where
  data : Json
  timestamp : Option Int

/-- The in-memory cache, as a mapping from key to entry. -/
def Cache := CacheKey → CacheEntry

/-- The cache as initialized at module load: every slot empty. -/
def initial_cache : Cache := fun _ => { data := .null, timestamp := none }

/-- Embeds `CACHE_DURATION = 300` (5-minute freshness window). -/
def CACHE_DURATION : Int := 300

/-- Embeds `is_cache_valid` (src/app.py lines 55-58): false when the slot has no
timestamp, otherwise `now - timestamp < CACHE_DURATION`. -/
def is_cache_valid (c : Cache) (key : CacheKey) (now : Int) : Bool :=
  match (c key).timestamp with
  | none => false
  | some t => decide (now - t < CACHE_DURATION)

/-- The cache update performed by every fetcher after a successful request:
`cache[key]['data'] = data; cache[key]['timestamp'] = datetime.utcnow()`. -/
def cache_write (c : Cache) (key : CacheKey) (d : Json) (now : Int) : Cache :=
  fun k => if k = key then { data := d, timestamp := some now } else c k

/-- Embeds `role_order.get(x['role'], 5)` with
`role_order = {'leader': 1, 'coLeader': 2, 'elder': 3, 'member': 4}`. -/
def role_order (role : String) : Nat :=
  if role = "leader" then 1
  else if role = "coLeader" then 2
  else if role = "elder" then 3
  else if role = "member" then 4
  else 5

/-- Reads `x['role']` of a member item (a string in every payload considered). -/
def memberRole (item : Json) : String :=
  match item.getKey? "role" with
  | some (.str s) => s
  | _ => ""

/-- Reads `x['trophies']` of a member item. -/
def memberTrophies (item : Json) : Int :=
  match item.getKey? "trophies" with
  | some (.num n) => n
  | _ => 0

/-- Reads `x['tag']` of a member item. -/
def memberTag (item : Json) : String :=
  match item.getKey? "tag" with
  | some (.str s) => s
  | _ => ""

/-- Reads `x['donations']` of a member item. -/
def memberDonations (item : Json) : Int :=
  match item.getKey? "donations" with
  | some (.num n) => n
  | _ => 0

/-- Reads `x['donationsReceived']` of a member item. -/
def memberDonationsReceived (item : Json) : Int :=
  match item.getKey? "donationsReceived" with
  | some (.num n) => n
  | _ => 0

/-- The sort key order used by `get_clan_members`:
`key=lambda x: (role_order.get(x['role'], 5), -x['trophies'])`, compared
lexicographically (`-a <= -b` iff `b <= a`). -/
def member_sort_le (a b : Json) : Bool :=
  decide (role_order (memberRole a) < role_order (memberRole b)) ||
  (role_order (memberRole a) == role_order (memberRole b) &&
    decide (memberTrophies b ≤ memberTrophies a))

/-- The roster sort in `get_clan_members`: Python `sorted` is a stable sort,
modelled by `List.mergeSort` (stable for the same total preorder, hence
extensionally equal). -/
def sort_members_items (items : List Json) : List Json :=
  items.mergeSort member_sort_le

/-- The normalization in `get_clan_members` (src/app.py lines 102-104):
`data['items'] = sorted(data['items'], key=...)`.  The source raises a
`KeyError` when `items` is absent; that branch is unreachable for the
payloads in the claims. -/
def normalize_members (data : Json) : Json :=
  match data with
  | .obj fs =>
    match lookupField fs "items" with
    | some (.arr items) => .obj (setField fs "items" (.arr (sort_members_items items)))
    | _ => .obj fs
  | other => other

/-- Performs `data['clan']['attacks'] = []` when the `attacks` key is absent or not a
list (src/app.py lines 129-134), applied to the `clan`/`opponent` sub-object. -/
def fix_attacks (v : Json) : Json :=
  match v with
  | .obj fs =>
    match lookupField fs "attacks" with
    | some (.arr l) => .obj (setField fs "attacks" (.arr l))
    | some _ => .obj (setField fs "attacks" (.arr []))
    | none => .obj (fs ++ [("attacks", .arr [])])
  | other => other

/-- The normalization in `get_current_war`: ensure `clan.attacks` and
`opponent.attacks` are lists when those sub-objects are dicts. -/
def normalize_current_war (data : Json) : Json :=
  match data with
  | .obj fs =>
    let fs1 :=
      match lookupField fs "clan" with
      | some v => if v.isDict then setField fs "clan" (fix_attacks v) else fs
      | none => fs
    let fs2 :=
      match lookupField fs1 "opponent" with
      | some v => if v.isDict then setField fs1 "opponent" (fix_attacks v) else fs1
      | none => fs1
    .obj fs2
  | other => other

/-- The common fetcher shape shared by the seven cached resources
(src/app.py lines 83-163 and 180-190): serve the cached data when fresh;
otherwise call `make_api_request` and, only when the result is a dict
without an `'error'` key, normalize it, store it and return it; any other
result (in particular every error dictionary) is returned unchanged with
the cache untouched. -/
def fetch_resource (key : CacheKey) (normalize : Json → Json)
    (c : Cache) (now : Int) (apiKeyConfigured : Bool)
    (resp : UpstreamResponse) : Json × Cache :=
  if is_cache_valid c key now then ((c key).data, c)
  else
    let data := make_api_request apiKeyConfigured resp
    if data.isDict && !(data.hasKey "error") then
      let normalized := normalize data
      (normalized, cache_write c key normalized now)
    else (data, c)

/-- Embeds `get_clan_info` (src/app.py lines 83-93). -/
def get_clan_info : Cache → Int → Bool → UpstreamResponse → Json × Cache :=
  fetch_resource .clan_info id

/-- Embeds `get_clan_members` (src/app.py lines 95-108). -/
def get_clan_members : Cache → Int → Bool → UpstreamResponse → Json × Cache :=
  fetch_resource .members normalize_members

/-- Embeds `get_war_log` (src/app.py lines 110-120). -/
def get_war_log : Cache → Int → Bool → UpstreamResponse → Json × Cache :=
  fetch_resource .war_log id

/-- Embeds `get_current_war` (src/app.py lines 122-139). -/
def get_current_war : Cache → Int → Bool → UpstreamResponse → Json × Cache :=
  fetch_resource .current_war normalize_current_war

/-- Embeds `get_league_group` (src/app.py lines 141-151). -/
def get_league_group : Cache → Int → Bool → UpstreamResponse → Json × Cache :=
  fetch_resource .league_group id

/-- Embeds `get_capital_raid_seasons` (src/app.py lines 153-163). -/
def get_capital_raid_seasons : Cache → Int → Bool → UpstreamResponse → Json × Cache :=
  fetch_resource .capital_raids id

/-- Embeds `get_leagues` (src/app.py lines 180-190). -/
def get_leagues : Cache → Int → Bool → UpstreamResponse → Json × Cache :=
  fetch_resource .leagues id

/-- Every error return of `make_api_request` is a dict with an `'error'`
key, so the fetchers' caching guard rejects it. -/
theorem errObj_isDict_hasKey (e : String) :
    (errObj e).isDict = true ∧ (errObj e).hasKey "error" = true := by
  constructor <;> rfl

/-- On a cache miss, a fetch whose upstream request produced an error
dictionary returns that dictionary unchanged and leaves the cache as it
was. -/
theorem fetch_resource_error (key : CacheKey) (normalize : Json → Json)
    (c : Cache) (now : Int) (ak : Bool) (resp : UpstreamResponse) (e : String)
    (hmiss : is_cache_valid c key now = false)
    (herr : make_api_request ak resp = errObj e) :
    fetch_resource key normalize c now ak resp = (errObj e, c) := by
  unfold fetch_resource
  rw [hmiss, herr]
  simp [errObj, Json.isDict, Json.hasKey, Json.getKey?, lookupField]

/-- C1: for each of the seven resource fetchers, if the upstream request on
a cache miss for that fetcher's key yields an error result, the fetcher
returns the error dictionary unchanged and the whole cache — in particular
the entry for that key, payload and timestamp — is exactly as before. -/
theorem fetchers_no_cache_on_error
    (c : Cache) (now : Int) (ak : Bool) (resp : UpstreamResponse) (e : String)
    (herr : make_api_request ak resp = errObj e) :
    (is_cache_valid c .clan_info now = false →
      get_clan_info c now ak resp = (errObj e, c)) ∧
    (is_cache_valid c .members now = false →
      get_clan_members c now ak resp = (errObj e, c)) ∧
    (is_cache_valid c .war_log now = false →
      get_war_log c now ak resp = (errObj e, c)) ∧
    (is_cache_valid c .current_war now = false →
      get_current_war c now ak resp = (errObj e, c)) ∧
    (is_cache_valid c .league_group now = false →
      get_league_group c now ak resp = (errObj e, c)) ∧
    (is_cache_valid c .capital_raids now = false →
      get_capital_raid_seasons c now ak resp = (errObj e, c)) ∧
    (is_cache_valid c .leagues now = false →
      get_leagues c now ak resp = (errObj e, c)) :=
  ⟨fun h => fetch_resource_error _ _ _ _ _ _ _ h herr,
   fun h => fetch_resource_error _ _ _ _ _ _ _ h herr,
   fun h => fetch_resource_error _ _ _ _ _ _ _ h herr,
   fun h => fetch_resource_error _ _ _ _ _ _ _ h herr,
   fun h => fetch_resource_error _ _ _ _ _ _ _ h herr,
   fun h => fetch_resource_error _ _ _ _ _ _ _ h herr,
   fun h => fetch_resource_error _ _ _ _ _ _ _ h herr⟩

/-- Witness for C1: a concrete 500 on an empty cache is returned unchanged
by `get_war_log` and the cache stays empty. -/
theorem fetchers_no_cache_on_error_witness :
    get_war_log initial_cache 0 true (.httpError 500 "boom") =
      (errObj "API request failed: 500 - boom", initial_cache) :=
  (fetchers_no_cache_on_error initial_cache 0 true (.httpError 500 "boom")
      "API request failed: 500 - boom" rfl).2.2.1 rfl

/-- C2: after a cache write at time `t0`, the freshness check at any
`t ≥ t0` succeeds exactly when `t < t0 + 300` (the `CACHE_DURATION`
window); a slot that was never written (absent timestamp) is never fresh. -/
theorem cache_freshness_window
    (c : Cache) (key : CacheKey) (d : Json) (t0 t : Int) (h : t0 ≤ t) :
    (is_cache_valid (cache_write c key d t0) key t = true ↔ t < t0 + CACHE_DURATION) ∧
    CACHE_DURATION = 300 ∧
    (∀ (c' : Cache) (k : CacheKey), (c' k).timestamp = none →
      is_cache_valid c' k t = false) := by
  refine ⟨?_, rfl, ?_⟩
  · simp [is_cache_valid, cache_write, CACHE_DURATION]
    omega
  · intro c' k hk
    simp [is_cache_valid, hk]

/-- Witness for C2: a write at `t0 = 100` is fresh at `t = 399`, stale at
`t = 400`, and the untouched empty cache is stale. -/
theorem cache_freshness_window_witness :
    is_cache_valid (cache_write initial_cache .members Json.null 100) .members 399 = true ∧
    is_cache_valid (cache_write initial_cache .members Json.null 100) .members 400 = false ∧
    is_cache_valid initial_cache .clan_info 400 = false := by
  refine ⟨?_, ?_, ?_⟩
  · exact (cache_freshness_window initial_cache .members Json.null 100 399
      (by decide)).1.mpr (by decide)
  · have h := (cache_freshness_window initial_cache .members Json.null 100 400
      (by decide)).1
    by_contra hc
    have : (400 : Int) < 100 + CACHE_DURATION := h.mp (by
      cases hval : is_cache_valid (cache_write initial_cache .members Json.null 100) .members 400
      · exact absurd hval hc
      · rfl)
    revert this
    decide
  · exact (cache_freshness_window initial_cache .clan_info Json.null 0 400
      (by decide)).2.2 initial_cache .clan_info rfl

/-- No message built by prefixing "API request failed: " (the 403, generic
non-2xx and transport messages all have this shape) equals the rate-limit
message. -/
theorem api_request_failed_ne_rate_limited (t : String) :
    ("API request failed: " ++ t) ≠ "API rate limit exceeded" := by
  intro h
  have hd : ("API request failed: " ++ t).data = "API rate limit exceeded".data := by
    rw [h]
  rw [String.data_append] at hd
  have h6 : List.take 6 ("API request failed: ".data ++ t.data) =
      List.take 6 "API rate limit exceeded".data := by rw [hd]
  rw [List.take_append_of_le_length (by decide)] at h6
  revert h6
  decide

/-- The 403 message is of the "API request failed: " shape. -/
theorem forbidden_message_shape :
    forbidden_message = "API request failed: " ++
      "403 Forbidden. This is likely an IP address issue. See README.md for instructions on how to register your server IP." := by
  decide

/-- C4: a 429 on a members cache miss makes `get_clan_members` return the
error with exactly the message "API rate limit exceeded", leaving the cache
untouched; and this message is produced by no other upstream failure — the
403 response, every other non-2xx status and every transport failure yield
messages distinct from it. -/
theorem get_clan_members_rate_limited
    (c : Cache) (now : Int) (body : String)
    (hmiss : is_cache_valid c .members now = false) :
    get_clan_members c now true (.httpError 429 body) =
      (errObj "API rate limit exceeded", c) ∧
    (∀ (b : String), make_api_request true (.httpError 403 b) = errObj forbidden_message) ∧
    forbidden_message ≠ "API rate limit exceeded" ∧
    (∀ (s : Nat) (b : String), s ≠ 403 → s ≠ 429 → make_api_request true (.httpError s b) =
      errObj ("API request failed: " ++ toString s ++ " - " ++ b)) ∧
    (∀ (s : Nat) (b : String), ("API request failed: " ++ toString s ++ " - " ++ b) ≠
      "API rate limit exceeded") ∧
    (∀ (d : String), make_api_request true (.transportError d) =
      errObj ("API request failed: " ++ d)) ∧
    (∀ (d : String), ("API request failed: " ++ d) ≠ "API rate limit exceeded") := by
  refine ⟨?_, fun b => rfl, ?_, ?_, ?_, fun d => rfl, fun d => api_request_failed_ne_rate_limited d⟩
  · exact fetch_resource_error _ _ _ _ _ _ _ hmiss rfl
  · rw [forbidden_message_shape]
    exact api_request_failed_ne_rate_limited _
  · intro s b hs429 hs403
    simp only [make_api_request]
    rw [if_neg (by simp), if_neg (by simpa using hs429), if_neg (by simpa using hs403)]
  · intro s b
    rw [String.append_assoc]
    exact api_request_failed_ne_rate_limited _

/-- Witness for C4: 429 on the empty cache. -/
theorem get_clan_members_rate_limited_witness :
    get_clan_members initial_cache 0 true (.httpError 429 "slow down") =
      (errObj "API rate limit exceeded", initial_cache) :=
  (get_clan_members_rate_limited initial_cache 0 "slow down" rfl).1

/-- The roster sort order is transitive. -/
theorem member_sort_le_trans (a b c : Json) (h1 : member_sort_le a b)
    (h2 : member_sort_le b c) : member_sort_le a c := by
  simp only [member_sort_le, Bool.or_eq_true, Bool.and_eq_true, decide_eq_true_eq,
    beq_iff_eq] at *
  omega

/-- The roster sort order is total. -/
theorem member_sort_le_total (a b : Json) :
    member_sort_le a b || member_sort_le b a := by
  simp only [member_sort_le, Bool.or_eq_true, Bool.and_eq_true, decide_eq_true_eq,
    beq_iff_eq]
  omega

/-- Members with equal role rank and equal trophies are tied in the roster
sort order. -/
theorem member_sort_le_of_tie (a b : Json)
    (hr : role_order (memberRole a) = role_order (memberRole b))
    (ht : memberTrophies a = memberTrophies b) : member_sort_le a b = true := by
  simp only [member_sort_le, Bool.or_eq_true, Bool.and_eq_true, decide_eq_true_eq,
    beq_iff_eq]
  omega

/-- Unfolding of the roster sort order into its two clauses. -/
theorem member_sort_le_iff (a b : Json) :
    member_sort_le a b = true ↔
      (role_order (memberRole a) < role_order (memberRole b) ∨
        (role_order (memberRole a) = role_order (memberRole b) ∧
          memberTrophies b ≤ memberTrophies a)) := by
  simp [member_sort_le]

/-- C3: on a successful fetch (cache miss, 2xx payload with an `items` list
and no `error` key), `get_clan_members` returns the payload with its
`items` replaced by `sort_members_items items`, and that list is a stable
sort of the upstream list: a permutation, sorted ascending by role rank
(`leader`:1, `coLeader`:2, `elder`:3, `member`:4, anything else 5) with
ties of equal rank ordered by trophies descending, and any two members
with equal rank and equal trophies keep their upstream relative order. -/
theorem get_clan_members_sorts_roster
    (c : Cache) (now : Int) (fs : List (String × Json)) (items : List Json)
    (hmiss : is_cache_valid c .members now = false)
    (herr : lookupField fs "error" = none)
    (hitems : lookupField fs "items" = some (.arr items)) :
    (get_clan_members c now true (.success (.obj fs))).1 =
      .obj (setField fs "items" (.arr (sort_members_items items))) ∧
    (sort_members_items items).Perm items ∧
    (sort_members_items items).Pairwise (fun a b =>
      role_order (memberRole a) < role_order (memberRole b) ∨
      (role_order (memberRole a) = role_order (memberRole b) ∧
        memberTrophies b ≤ memberTrophies a)) ∧
    (∀ a b, List.Sublist [a, b] items →
      role_order (memberRole a) = role_order (memberRole b) →
      memberTrophies a = memberTrophies b →
      List.Sublist [a, b] (sort_members_items items)) := by
  refine ⟨?_, List.mergeSort_perm items member_sort_le, ?_, ?_⟩
  · simp [get_clan_members, fetch_resource, hmiss, make_api_request,
      Json.isDict, Json.hasKey, Json.getKey?, herr, normalize_members, hitems]
  · exact (List.sorted_mergeSort
      (fun a b c h1 h2 => member_sort_le_trans a b c h1 h2)
      member_sort_le_total items).imp (fun h => (member_sort_le_iff _ _).mp h)
  · intro a b hsub hr ht
    exact List.pair_sublist_mergeSort
      (fun a b c h1 h2 => member_sort_le_trans a b c h1 h2)
      member_sort_le_total (member_sort_le_of_tie a b hr ht) hsub

/-- A sample member payload item used by concrete witnesses. -/
def sampleMemberLeader : Json :=
  .obj [("tag", .str "#AAA11"), ("role", .str "leader"), ("trophies", .num 5000),
        ("donations", .num 120), ("donationsReceived", .num 40)]

/-- Witness for C3: a one-member roster payload round-trips through the
fetcher with its `items` sorted. -/
theorem get_clan_members_sorts_roster_witness :
    (get_clan_members initial_cache 0 true
      (.success (.obj [("items", .arr [sampleMemberLeader])]))).1 =
      .obj [("items", .arr [sampleMemberLeader])] := by
  have h := (get_clan_members_sorts_roster initial_cache 0
    [("items", .arr [sampleMemberLeader])] [sampleMemberLeader] rfl rfl rfl).1
  rw [h]
  simp [sort_members_items, setField]

/-- Python `sorted(..., key=lambda x: x[metric], reverse=True)` compares by
the metric descending; `reverse=True` keeps ties in input order, so it is
the stable sort for the total preorder `f b ≤ f a`. -/
def metric_desc_le (f : Json → Int) (a b : Json) : Bool := decide (f b ≤ f a)

/-- The descending metric order is transitive. -/
theorem metric_desc_le_trans (f : Json → Int) (a b c : Json)
    (h1 : metric_desc_le f a b) (h2 : metric_desc_le f b c) :
    metric_desc_le f a c := by
  simp only [metric_desc_le, decide_eq_true_eq] at *
  omega

/-- The descending metric order is total. -/
theorem metric_desc_le_total (f : Json → Int) (a b : Json) :
    metric_desc_le f a b || metric_desc_le f b a := by
  simp only [metric_desc_le, Bool.or_eq_true, decide_eq_true_eq]
  omega

/-- Stability of `mergeSort`, filter form: restricting the output to any set
of mutually tied elements gives exactly the input restricted to that set,
in input order. -/
theorem mergeSort_filter_of_tied {α : Type} (le : α → α → Bool)
    (tr : ∀ a b c, le a b → le b c → le a c)
    (tot : ∀ a b, le a b || le b a)
    (p : α → Bool) (l : List α)
    (htied : ∀ a b, p a = true → p b = true → le a b = true) :
    (l.mergeSort le).filter p = l.filter p := by
  have hsub : List.Sublist (l.filter p) l := List.filter_sublist l
  have hpw : (l.filter p).Pairwise (fun a b => le a b = true) :=
    List.pairwise_of_forall_mem_list (fun a ha b hb =>
      htied a b (List.of_mem_filter ha) (List.of_mem_filter hb))
  have h2 : List.Sublist (l.filter p) (l.mergeSort le) :=
    List.sublist_mergeSort tr tot hpw hsub
  have h6 : (l.filter p).filter p = l.filter p :=
    List.filter_eq_self.mpr (fun a ha => List.of_mem_filter ha)
  have h3 : List.Sublist (l.filter p) ((l.mergeSort le).filter p) := by
    have h4 := h2.filter p
    rwa [h6] at h4
  have h5 : ((l.mergeSort le).filter p).length = (l.filter p).length :=
    ((List.mergeSort_perm l le).filter p).length_eq
  exact (h3.eq_of_length h5.symm).symm

/-- The pure part of the `top_players` route (src/app.py lines 385-401):
each leaderboard is `sorted(players, key=..., reverse=True)[:20]` for
donations, trophies and donations received. -/
def top_players (players : List Json) : List Json × List Json × List Json :=
  ((players.mergeSort (metric_desc_le memberDonations)).take 20,
   (players.mergeSort (metric_desc_le memberTrophies)).take 20,
   (players.mergeSort (metric_desc_le memberDonationsReceived)).take 20)

/-- A stable descending top-20 by a metric: `min 20 M` entries, sorted
descending, ties kept in input order (filter form). -/
theorem top20_spec (f : Json → Int) (players : List Json) :
    ((players.mergeSort (metric_desc_le f)).take 20).length = min 20 players.length ∧
    ((players.mergeSort (metric_desc_le f)).take 20).Pairwise (fun a b => f b ≤ f a) ∧
    ∀ v : Int, ∃ rest, players.filter (fun m => f m == v) =
      ((players.mergeSort (metric_desc_le f)).take 20).filter (fun m => f m == v) ++ rest := by
  refine ⟨by simp, ?_, ?_⟩
  · have hs := List.sorted_mergeSort
      (fun a b c h1 h2 => metric_desc_le_trans f a b c h1 h2)
      (metric_desc_le_total f) players
    have ht : List.Sublist ((players.mergeSort (metric_desc_le f)).take 20)
        (players.mergeSort (metric_desc_le f)) := List.take_sublist 20 _
    exact (hs.sublist ht).imp (fun h => by simpa [metric_desc_le] using h)
  · intro v
    refine ⟨((players.mergeSort (metric_desc_le f)).drop 20).filter (fun m => f m == v), ?_⟩
    rw [← List.filter_append, List.take_append_drop]
    rw [mergeSort_filter_of_tied (metric_desc_le f)
      (fun a b c h1 h2 => metric_desc_le_trans f a b c h1 h2)
      (metric_desc_le_total f) _ players
      (fun a b ha hb => by
        simp only [beq_iff_eq] at ha hb
        simp [metric_desc_le, ha, hb])]

/-- C6: each of the three leaderboards produced by `top_players` has exactly
`min 20 M` entries for a roster of size `M`, is sorted descending by its
metric, and members with equal metric value appear in roster order (the
equal-metric entries of a leaderboard are an initial segment of the roster's
equal-metric entries, in roster order). -/
theorem top_players_leaderboards (players : List Json) :
    ((top_players players).1.length = min 20 players.length ∧
     (top_players players).1.Pairwise
       (fun a b => memberDonations b ≤ memberDonations a) ∧
     ∀ v : Int, ∃ rest, players.filter (fun m => memberDonations m == v) =
       (top_players players).1.filter (fun m => memberDonations m == v) ++ rest) ∧
    ((top_players players).2.1.length = min 20 players.length ∧
     (top_players players).2.1.Pairwise
       (fun a b => memberTrophies b ≤ memberTrophies a) ∧
     ∀ v : Int, ∃ rest, players.filter (fun m => memberTrophies m == v) =
       (top_players players).2.1.filter (fun m => memberTrophies m == v) ++ rest) ∧
    ((top_players players).2.2.length = min 20 players.length ∧
     (top_players players).2.2.Pairwise
       (fun a b => memberDonationsReceived b ≤ memberDonationsReceived a) ∧
     ∀ v : Int, ∃ rest, players.filter (fun m => memberDonationsReceived m == v) =
       (top_players players).2.2.filter (fun m => memberDonationsReceived m == v) ++ rest) :=
  ⟨top20_spec memberDonations players, top20_spec memberTrophies players,
   top20_spec memberDonationsReceived players⟩

/-- A war-log record, as read by the `war_stats_api` route: `result`,
`clan.stars`, `clan.destructionPercentage`, `opponent.name`,
`opponent.stars`, `opponent.destructionPercentage`.  Destruction
percentages are carried opaquely (the route never computes with them), as
exact rationals. -/
structure WarRecord where
  result : String
  clan_stars : Int
  clan_destruction : Rat
  opponent_name : String
  opponent_stars : Int
  opponent_destruction : Rat

/-- One entry of the `war_results` summary list built by `war_stats_api`. -/
structure WarResultRow where
  opponent : String
  result : String
  our_stars : Int
  opponent_stars : Int
  our_destruction : Rat
  opponent_destruction : Rat

/-- The JSON view returned by `war_stats_api`. -/
structure WarStats where
  wins : Nat
  losses : Nat
  draws : Nat
  stars_trend : List Int
  our_destruction : List Rat
  opponent_destruction : List Rat
  war_results : List WarResultRow

/-- The pure aggregation of the `war_stats_api` route (src/app.py lines
345-383): tallies of win/lose/tie and the per-war trend lists, built by a
single in-order pass over the war log. -/
def compute_war_statistics (wars : List WarRecord) : WarStats :=
  { wins := wars.countP (fun war => war.result == "win")
  , losses := wars.countP (fun war => war.result == "lose")
  , draws := wars.countP (fun war => war.result == "tie")
  , stars_trend := wars.map (fun war => war.clan_stars)
  , our_destruction := wars.map (fun war => war.clan_destruction)
  , opponent_destruction := wars.map (fun war => war.opponent_destruction)
  , war_results := wars.map (fun war =>
      { opponent := war.opponent_name
      , result := war.result
      , our_stars := war.clan_stars
      , opponent_stars := war.opponent_stars
      , our_destruction := war.clan_destruction
      , opponent_destruction := war.opponent_destruction }) }

/-- C5: for a war log with `W` wins, `L` losses and `T` ties
(`W + L + T` = number of records), the computed statistics report exactly
those three counts, and the three trend lists have the war log's length
with the `i`-th entry taken from the `i`-th war record (input order
preserved). -/
theorem war_stats_counts_and_trends (wars : List WarRecord) (W L T : Nat)
    (hW : wars.countP (fun war => war.result == "win") = W)
    (hL : wars.countP (fun war => war.result == "lose") = L)
    (hT : wars.countP (fun war => war.result == "tie") = T)
    (_hTot : W + L + T = wars.length) :
    (compute_war_statistics wars).wins = W ∧
    (compute_war_statistics wars).losses = L ∧
    (compute_war_statistics wars).draws = T ∧
    (compute_war_statistics wars).stars_trend.length = wars.length ∧
    (compute_war_statistics wars).our_destruction.length = wars.length ∧
    (compute_war_statistics wars).opponent_destruction.length = wars.length ∧
    (∀ i : Nat, (compute_war_statistics wars).stars_trend[i]? =
      (wars[i]?).map (fun war => war.clan_stars)) ∧
    (∀ i : Nat, (compute_war_statistics wars).our_destruction[i]? =
      (wars[i]?).map (fun war => war.clan_destruction)) ∧
    (∀ i : Nat, (compute_war_statistics wars).opponent_destruction[i]? =
      (wars[i]?).map (fun war => war.opponent_destruction)) := by
  refine ⟨hW, hL, hT, ?_, ?_, ?_, ?_, ?_, ?_⟩ <;>
    simp [compute_war_statistics, List.getElem?_map]

/-- Witness for C5: a three-war log with one win, one loss and one tie. -/
theorem war_stats_counts_and_trends_witness :
    (compute_war_statistics
      [⟨"win", 30, 99, "Foo", 10, 50⟩, ⟨"lose", 12, 60, "Bar", 28, 95⟩,
       ⟨"tie", 20, 80, "Baz", 20, 80⟩]).wins = 1 ∧
    (compute_war_statistics
      [⟨"win", 30, 99, "Foo", 10, 50⟩, ⟨"lose", 12, 60, "Bar", 28, 95⟩,
       ⟨"tie", 20, 80, "Baz", 20, 80⟩]).losses = 1 ∧
    (compute_war_statistics
      [⟨"win", 30, 99, "Foo", 10, 50⟩, ⟨"lose", 12, 60, "Bar", 28, 95⟩,
       ⟨"tie", 20, 80, "Baz", 20, 80⟩]).draws = 1 := by
  have h := war_stats_counts_and_trends
    [⟨"win", 30, 99, "Foo", 10, 50⟩, ⟨"lose", 12, 60, "Bar", 28, 95⟩,
     ⟨"tie", 20, 80, "Baz", 20, 80⟩] 1 1 1 (by decide) (by decide) (by decide) (by decide)
  exact ⟨h.1, h.2.1, h.2.2.1⟩

/-- The CWL team-selection store (src/app.py lines 42-45):
`{'selected_members': [...], 'last_updated': ...}`. -/
structure CwlSelection where
  selected_members : List Json
  last_updated : Option Int

/-- Python `members.get('items', [])`. -/
def getItemsD (j : Json) : List Json :=
  match j.getKey? "items" with
  | some (.arr l) => l
  | _ => []

/-- The POST handler `update_cwl_team_selection` (src/app.py lines
260-278), with the fetched `members` payload and the clock as inputs: on an
error payload it redirects without touching the store; otherwise it
replaces `selected_members` wholesale with the roster members whose tag is
among the submitted tags and stamps `last_updated`. -/
def update_cwl_team_selection (selected_member_tags : List String)
    (members : Json) (st : CwlSelection) (now : Int) : CwlSelection :=
  if members.isDict && members.hasKey "error" then st
  else
    { selected_members :=
        (getItemsD members).filter (fun m => selected_member_tags.contains (memberTag m))
    , last_updated := some now }

/-- C7: the selection replace is total — on a successful roster payload the
new selection is exactly the roster members whose tag is in the submitted
set, in roster order (a sublist of the roster), independent of the prior
selection; an empty tag set empties the selection; `last_updated` becomes
the current time. -/
theorem replace_selection_total
    (fs : List (String × Json)) (items : List Json) (tags : List String)
    (st : CwlSelection) (now : Int)
    (herr : lookupField fs "error" = none)
    (hitems : lookupField fs "items" = some (.arr items)) :
    (update_cwl_team_selection tags (.obj fs) st now).selected_members =
      items.filter (fun m => tags.contains (memberTag m)) ∧
    (update_cwl_team_selection tags (.obj fs) st now).last_updated = some now ∧
    (tags = [] → (update_cwl_team_selection tags (.obj fs) st now).selected_members = []) ∧
    (∀ st' : CwlSelection, update_cwl_team_selection tags (.obj fs) st' now =
      update_cwl_team_selection tags (.obj fs) st now) ∧
    List.Sublist (update_cwl_team_selection tags (.obj fs) st now).selected_members items ∧
    (∀ m, m ∈ (update_cwl_team_selection tags (.obj fs) st now).selected_members ↔
      (m ∈ items ∧ memberTag m ∈ tags)) := by
  have hguard : ((Json.obj fs).isDict && (Json.obj fs).hasKey "error") = false := by
    simp [Json.isDict, Json.hasKey, Json.getKey?, herr]
  have hsel : update_cwl_team_selection tags (.obj fs) st now =
      { selected_members := items.filter (fun m => tags.contains (memberTag m))
      , last_updated := some now } := by
    simp [update_cwl_team_selection, hguard, getItemsD, Json.getKey?, hitems]
  refine ⟨by rw [hsel], by rw [hsel], ?_, ?_, ?_, ?_⟩
  · intro htags
    rw [hsel]
    simp [htags]
  · intro st'
    rw [hsel]
    simp [update_cwl_team_selection, hguard, getItemsD, Json.getKey?, hitems]
  · rw [hsel]
    exact List.filter_sublist items
  · intro m
    rw [hsel]
    simp [List.mem_filter]

/-- Witness for C7: replacing with one tag out of a two-member roster keeps
exactly the matching member. -/
theorem replace_selection_total_witness :
    (update_cwl_team_selection ["#AAA11"]
      (.obj [("items", .arr [sampleMemberLeader])])
      { selected_members := [Json.null], last_updated := none } 42).selected_members =
      [sampleMemberLeader] := by
  rw [(replace_selection_total [("items", .arr [sampleMemberLeader])]
    [sampleMemberLeader] ["#AAA11"]
    { selected_members := [Json.null], last_updated := none } 42 rfl rfl).1]
  rfl

/-- C10: if the roster fetch inside the selection update returns an error
dictionary, the selection state is returned entirely unchanged —
`selected_members` and `last_updated` keep their prior values. -/
theorem replace_selection_error_leaves_state (e : String) (tags : List String)
    (st : CwlSelection) (now : Int) :
    update_cwl_team_selection tags (errObj e) st now = st := by
  simp [update_cwl_team_selection, errObj, Json.isDict, Json.hasKey,
    Json.getKey?, lookupField]

/-- Python `str.replace('#', '%23')` on the characters of a tag: every
occurrence of the delimiter is expanded to the three characters `%23`. -/
def replace_hash : List Char → List Char
  | [] => []
  | ch :: rest =>
    if ch = '#' then '%' :: '2' :: '3' :: replace_hash rest
    else ch :: replace_hash rest

/-- The tag encoding used by `get_league_war` and `get_player`:
`tag.replace('#', '%23') if tag.startswith('#') else tag`. -/
def encode_tag (s : List Char) : List Char :=
  if s.head? = some '#' then replace_hash s else s

/-- The upstream path built by `get_league_war` (src/app.py lines 165-168). -/
def get_league_war_endpoint (war_tag : List Char) : List Char :=
  "/clanwarleagues/wars/".data ++ encode_tag war_tag

/-- The upstream path built by `get_player` (src/app.py lines 175-178). -/
def get_player_endpoint (player_tag : List Char) : List Char :=
  "/players/".data ++ encode_tag player_tag

/-- C8: an identifier beginning with the clan-tag delimiter has that
character percent-encoded as `%23` in the encoded form embedded into the
`get_league_war` and `get_player` upstream paths; an identifier not
beginning with it passes through unchanged; concretely, "#ABC12" becomes
"%23ABC12" and "ABC12" stays "ABC12". -/
theorem tag_encoding (s : List Char) :
    (s.head? = some '#' → encode_tag s = '%' :: '2' :: '3' :: replace_hash s.tail) ∧
    (s.head? ≠ some '#' → encode_tag s = s) ∧
    encode_tag "#ABC12".data = "%23ABC12".data ∧
    encode_tag "ABC12".data = "ABC12".data ∧
    get_league_war_endpoint s = "/clanwarleagues/wars/".data ++ encode_tag s ∧
    get_player_endpoint s = "/players/".data ++ encode_tag s := by
  refine ⟨?_, ?_, by decide, by decide, rfl, rfl⟩
  · intro h
    match s, h with
    | c :: rest, h =>
      have hc : c = '#' := by simpa using h
      subst hc
      simp [encode_tag, replace_hash]
  · intro h
    simp [encode_tag, h]

/-- Witness for C8 at concrete identifiers with and without the leading
delimiter. -/
theorem tag_encoding_witness :
    encode_tag "#XY9".data = '%' :: '2' :: '3' :: replace_hash ("#XY9".data.tail) ∧
    encode_tag "XY9".data = "XY9".data :=
  ⟨(tag_encoding "#XY9".data).1 (by decide), (tag_encoding "XY9".data).2.1 (by decide)⟩

/-- A member dictionary as a mutable Python object: `tag`, `role`,
`trophies`, and the `selected` key (absent until the roster view writes
it).  Used to model object identity, which the pure `Json` values cannot
express: the cached roster and the stored selection hold references into
one shared heap. -/
structure MObj where
  tag : String
  role : String
  trophies : Int
  selected : Option Bool
deriving DecidableEq

/-- Placeholder for out-of-range heap reads (never hit in the states the
theorems quantify over). -/
def defaultMObj : MObj := { tag := "", role := "", trophies := 0, selected := none }

/-- The object graph of the running app while the members cache is fresh:
`heap` holds the member dict objects; `roster` is
`cache['members']['data']['items']` as a list of object references;
`selected_members` is `cwl_team_selection['selected_members']`, also object
references. -/
structure PageState where
  heap : List MObj
  roster : List Nat
  selected_members : List Nat
  last_updated : Option Int
deriving DecidableEq

/-- Reads `member['tag']` through a heap reference. -/
def heapTag (h : List MObj) (i : Nat) : String := (h.getD i defaultMObj).tag

/-- The POST handler `update_cwl_team_selection` on a fresh members cache,
at the object level (src/app.py lines 269-275): the list comprehension
`[member for member in all_members if member['tag'] in selected_member_tags]`
stores references to the same member objects held by the cache, not
copies. -/
def replace_selection_live (tags : List String) (now : Int) (st : PageState) : PageState :=
  { st with
    selected_members := st.roster.filter (fun i => tags.contains (heapTag st.heap i)),
    last_updated := some now }

/-- One iteration of the decoration loop in `cwl_team_selection_page`
(src/app.py lines 252-253): `member['selected'] = member['tag'] in
selected_tags`, an in-place write to the shared member object. -/
def decorate_step (h : List MObj) (tags : List String) (i : Nat) : List MObj :=
  h.set i { h.getD i defaultMObj with
            selected := some (tags.contains (h.getD i defaultMObj).tag) }

/-- The whole decoration loop over the cached roster. -/
def decorate (h : List MObj) (roster : List Nat) (tags : List String) : List MObj :=
  roster.foldl (fun acc i => decorate_step acc tags i) h

/-- The GET handler `cwl_team_selection_page` on a fresh members cache
(src/app.py lines 242-258): computes `selected_tags` from the stored
selection, then mutates every cached roster member's `selected` key in
place. -/
def roster_view (st : PageState) : PageState :=
  { st with heap := decorate st.heap st.roster (st.selected_members.map (heapTag st.heap)) }

/-- A members re-fetch after cache expiry: `response.json()` builds fresh
member objects, and the cache is repointed at them; the old objects (and
any selection referencing them) are untouched. -/
def refetch_members (newItems : List MObj) (st : PageState) : PageState :=
  { st with heap := st.heap ++ newItems,
            roster := List.range' st.heap.length newItems.length }

/-- The member objects currently held by the stored selection. -/
def selected_objects (st : PageState) : List MObj :=
  st.selected_members.map (fun i => st.heap.getD i defaultMObj)

/-- A decoration step keeps the heap's length. -/
theorem decorate_step_length (h : List MObj) (tags : List String) (i : Nat) :
    (decorate_step h tags i).length = h.length := by
  simp [decorate_step]

/-- A decoration step leaves every other object unchanged. -/
theorem decorate_step_getD_ne (h : List MObj) (tags : List String) (i j : Nat)
    (hij : i ≠ j) :
    (decorate_step h tags i).getD j defaultMObj = h.getD j defaultMObj := by
  simp [decorate_step, List.getD_eq_getElem?_getD, List.getElem?_set_ne hij]

/-- A decoration step sets exactly the `selected` field of its target. -/
theorem decorate_step_getD_self (h : List MObj) (tags : List String) (i : Nat)
    (hi : i < h.length) :
    (decorate_step h tags i).getD i defaultMObj =
      { h.getD i defaultMObj with
        selected := some (tags.contains (h.getD i defaultMObj).tag) } := by
  simp [decorate_step, List.getD_eq_getElem?_getD, List.getElem?_set_self hi]

/-- Decoration steps never change a member's tag. -/
theorem decorate_step_tag (h : List MObj) (tags : List String) (i j : Nat) :
    ((decorate_step h tags i).getD j defaultMObj).tag = (h.getD j defaultMObj).tag := by
  by_cases hij : i = j
  · subst hij
    by_cases hi : i < h.length
    · rw [decorate_step_getD_self h tags i hi]
    · have hnone : h[i]? = none := List.getElem?_eq_none (by omega)
      simp [decorate_step, List.getD_eq_getElem?_getD, List.getElem?_set, hnone, hi]
  · rw [decorate_step_getD_ne h tags i j hij]

/-- The decoration loop keeps the heap's length. -/
theorem decorate_length (roster : List Nat) (h : List MObj) (tags : List String) :
    (decorate h roster tags).length = h.length := by
  induction roster generalizing h with
  | nil => rfl
  | cons j rest ih =>
    simp only [decorate, List.foldl_cons]
    rw [show List.foldl (fun acc i => decorate_step acc tags i) (decorate_step h tags j) rest =
      decorate (decorate_step h tags j) rest tags from rfl]
    rw [ih, decorate_step_length]

/-- The decoration loop leaves objects outside the roster unchanged. -/
theorem decorate_not_mem (roster : List Nat) (h : List MObj) (tags : List String)
    (j : Nat) (hj : j ∉ roster) :
    (decorate h roster tags).getD j defaultMObj = h.getD j defaultMObj := by
  induction roster generalizing h with
  | nil => rfl
  | cons i rest ih =>
    simp only [decorate, List.foldl_cons]
    rw [show List.foldl (fun acc i => decorate_step acc tags i) (decorate_step h tags i) rest =
      decorate (decorate_step h tags i) rest tags from rfl]
    rw [ih _ (fun hmem => hj (List.mem_cons_of_mem i hmem))]
    exact decorate_step_getD_ne h tags i j (fun he => hj (he ▸ List.mem_cons_self i rest))

/-- The decoration loop never changes any member's tag. -/
theorem decorate_tag (roster : List Nat) (h : List MObj) (tags : List String) (j : Nat) :
    ((decorate h roster tags).getD j defaultMObj).tag = (h.getD j defaultMObj).tag := by
  induction roster generalizing h with
  | nil => rfl
  | cons i rest ih =>
    simp only [decorate, List.foldl_cons]
    rw [show List.foldl (fun acc i => decorate_step acc tags i) (decorate_step h tags i) rest =
      decorate (decorate_step h tags i) rest tags from rfl]
    rw [ih, decorate_step_tag]

/-- Effect of the decoration loop on a roster member, for a duplicate-free
roster: only its `selected` field changes. -/
theorem decorate_getD_mem (roster : List Nat) (h : List MObj) (tags : List String)
    (i : Nat) (hmem : i ∈ roster) (hnd : roster.Nodup) (hlen : i < h.length) :
    (decorate h roster tags).getD i defaultMObj =
      { h.getD i defaultMObj with
        selected := some (tags.contains (h.getD i defaultMObj).tag) } := by
  induction roster generalizing h with
  | nil => cases hmem
  | cons j rest ih =>
    simp only [decorate, List.foldl_cons]
    rw [show List.foldl (fun acc i => decorate_step acc tags i) (decorate_step h tags j) rest =
      decorate (decorate_step h tags j) rest tags from rfl]
    rcases List.mem_cons.mp hmem with hij | hrest
    · subst hij
      have hnot : i ∉ rest := (List.nodup_cons.mp hnd).1
      rw [decorate_not_mem rest _ tags i hnot]
      exact decorate_step_getD_self h tags i hlen
    · have hij : j ≠ i := by
        intro he
        subst he
        exact (List.nodup_cons.mp hnd).1 hrest
      rw [ih _ hrest (List.nodup_cons.mp hnd).2 (by rw [decorate_step_length]; exact hlen)]
      rw [decorate_step_getD_ne h tags j i hij]

/-- A one-member clan whose only member is then selected for CWL. -/
def c9_state0 : PageState :=
  { heap := [{ tag := "#AAA11", role := "leader", trophies := 100, selected := none }],
    roster := [0], selected_members := [], last_updated := none }

/-- Counterexample to C9: after `replace_selection_live` stores the single
member, merely viewing the roster page changes that stored member — its
`selected` field goes from absent to `some true` — because the snapshot
holds a reference to the cached object, not a copy. -/
theorem snapshot_counterexample :
    selected_objects (roster_view (replace_selection_live ["#AAA11"] 10 c9_state0)) ≠
      selected_objects (replace_selection_live ["#AAA11"] 10 c9_state0) ∧
    (selected_objects (replace_selection_live ["#AAA11"] 10 c9_state0)).map MObj.selected =
      [none] ∧
    (selected_objects (roster_view (replace_selection_live ["#AAA11"] 10 c9_state0))).map
      MObj.selected = [some true] := by
  refine ⟨?_, rfl, rfl⟩
  decide

/-- C9 (amended): the selection snapshot holds live references, not copies.
A roster re-fetch (which installs fresh objects) leaves the stored members
unchanged, but the roster-view decoration mutates them: it sets each stored
member's `selected` field to `some true`, keeping the other fields. -/
theorem selection_snapshot_live_references
    (st : PageState) (tags : List String) (now : Int) (newItems : List MObj)
    (hnd : st.roster.Nodup) (hlen : ∀ i ∈ st.roster, i < st.heap.length) :
    selected_objects (refetch_members newItems (replace_selection_live tags now st)) =
      selected_objects (replace_selection_live tags now st) ∧
    ∀ i ∈ (replace_selection_live tags now st).selected_members,
      (roster_view (replace_selection_live tags now st)).heap.getD i defaultMObj =
        { (replace_selection_live tags now st).heap.getD i defaultMObj with
          selected := some true } := by
  constructor
  · simp only [selected_objects, refetch_members, replace_selection_live]
    apply List.map_congr_left
    intro i hi
    have hiro : i ∈ st.roster := (List.mem_filter.mp hi).1
    have hilen : i < st.heap.length := hlen i hiro
    simp [List.getD_eq_getElem?_getD, List.getElem?_append_left hilen]
  · intro i hi
    have hmem' : i ∈ st.roster := (List.mem_filter.mp hi).1
    have hres := decorate_getD_mem st.roster st.heap
      (((replace_selection_live tags now st).selected_members).map (heapTag st.heap)) i
      hmem' hnd (hlen i hmem')
    have htagmem : (st.heap.getD i defaultMObj).tag ∈
        ((replace_selection_live tags now st).selected_members).map (heapTag st.heap) :=
      List.mem_map_of_mem (heapTag st.heap) hi
    have hcontains : (((replace_selection_live tags now st).selected_members).map
        (heapTag st.heap)).contains (st.heap.getD i defaultMObj).tag = true :=
      List.elem_eq_true_of_mem htagmem
    show (decorate st.heap st.roster
        (((replace_selection_live tags now st).selected_members).map
          (heapTag st.heap))).getD i defaultMObj =
      { st.heap.getD i defaultMObj with selected := some true }
    rw [hres, hcontains]

/-- Witness for the amended C9 on the concrete one-member state. -/
theorem selection_snapshot_live_references_witness :
    (roster_view (replace_selection_live ["#AAA11"] 10 c9_state0)).heap.getD 0 defaultMObj =
      { (replace_selection_live ["#AAA11"] 10 c9_state0).heap.getD 0 defaultMObj with
        selected := some true } :=
  (selection_snapshot_live_references c9_state0 ["#AAA11"] 10 []
    (by decide) (by decide)).2 0 (by decide)
